import Mathlib

/-!
Shallow embedding of `src/src/predictor.cc` (librime-predict), the
prediction controller (`rime::Predictor`). The data model follows the
interfaces the controller consumes: segments and contexts carry exactly
the fields the controller reads, external mutations that the controller
merely requests (engine clear, context commit/clear/select, segment
content clear) are recorded as actions in an effect trace, and container
mutations the controller performs itself (`pop_back`, `push_back`,
`clear`) are performed on the modelled composition list. Null-pointer
dereferences (the `rbegin()` of an empty composition in `OnSelect`, the
unchecked `GetSelectedCandidate()->text()`) are modelled as distinguished
outcomes rather than total results.
-/

namespace Predict

/-- A candidate as observed by the controller: its text and its type tag. -/
structure Candidate where
  text : String
  ctype : String
deriving DecidableEq, Repr

/-- Segment confirmation status (`rime::Segment::Status`). -/
inductive SegmentStatus where
  | kVoid
  | kGuess
  | kSelected
  | kConfirmed
deriving DecidableEq, Repr

/-- One composition segment: span, status, tags, current selected index, and
the candidate its menu currently selects (as seen via `GetSelectedCandidate`). -/
structure Segment where
  start : Nat
  stop : Nat
  status : SegmentStatus
  tags : List String
  selected_index : Nat
  selectedCandidate : Option Candidate
deriving DecidableEq, Repr

instance : Inhabited Segment :=
  ⟨{ start := 0, stop := 0, status := .kVoid, tags := [], selected_index := 0,
     selectedCandidate := none }⟩

/-- `Segment::HasTag`. -/
def Segment.hasTag (s : Segment) (tag : String) : Bool :=
  s.tags.contains tag

/-- The fresh empty segment `Segment(end, end)` pushed after a confirmed
prediction. -/
def newSegment (e : Nat) : Segment :=
  { start := e, stop := e, status := .kVoid, tags := [], selected_index := 0,
    selectedCandidate := none }

/-- One record of the commit history: `(text, type)`. -/
structure CommitRecord where
  text : String
  ctype : String
deriving DecidableEq, Repr

/-- The slice of `rime::Context` the controller reads: the composition (an
ordered segment list, mutable at the tail), the input buffer, the enabled
option names, the commit history, whether a menu is showing, and the
context-level selected-candidate accessor. -/
structure Context where
  composition : List Segment
  input : String
  options : List String
  commitHistory : List CommitRecord
  hasMenu : Bool
  selectedCandidate : Option Candidate
deriving DecidableEq, Repr

/-- `Context::get_option`. -/
def Context.get_option (ctx : Context) (name : String) : Bool :=
  ctx.options.contains name

/-- The trailing segment, `composition().back()`; only consulted after the
code has established that the composition is non-empty. -/
def backSeg (comp : List Segment) : Segment :=
  (comp.getLast?).getD default

/-- A key event: keysym and modifier mask. -/
structure KeyEvent where
  keycode : Nat
  modifier : Nat
deriving DecidableEq, Repr

def XK_BackSpace : Nat := 0xff08
def XK_Escape : Nat := 0xff1b
def XK_Return : Nat := 0xff0d
def XK_KP_Enter : Nat := 0xff8d
def XK_0 : Nat := 0x30
def XK_9 : Nat := 0x39
def XK_KP_0 : Nat := 0xffb0
def XK_KP_9 : Nat := 0xffb9

/-- The controller's classification of the last processed event. -/
inductive LastAction where
  | kUnspecified
  | kSelect
  | kDelete
  | kInitiate
deriving DecidableEq, Repr

/-- Session state owned by the controller. `iteration_counter` is a C++
`int` (declared in the header), so it is modelled as a mathematical
integer; the controller decrements it without a lower bound. -/
structure PredictorState where
  iteration_counter : Int
  last_action : LastAction
  self_updating : Bool
  selectors : String
  initials : String
deriving DecidableEq, Repr

/-- `rime::ProcessResult`. -/
inductive ProcessResult where
  | kRejected
  | kAccepted
  | kNoop
deriving DecidableEq, Repr

/-- Externally visible requests the controller issues, in program order. -/
inductive Action where
  | EngineClear
  | PopBack
  | ClearBackSegment
  | CtxClear
  | CtxCommit
  | CtxSelect (i : Nat)
  | EnginePredict (query : String)
  | CreatePredictSegment
  | NotifyUpdate
deriving DecidableEq, Repr

/-- How the fired update notification behaves: its handlers either return
normally or raise an exception that propagates to the caller. -/
inductive NotifyBehavior where
  | returns
  | raises
deriving DecidableEq, Repr

/-- The external collaborators' responses, fixed for one handler run:
whether `engine_`, `predict_engine_` and the context are non-null, the
schema's page size, the engine's `max_iterations()`, what
`PredictEngine::Predict` returns, how the fired notification behaves,
and what `Context::Select i` returns. -/
structure Env where
  hasHostEngine : Bool
  hasEngine : Bool
  hasContext : Bool
  page_size : Nat
  max_iterations : Int
  predictOk : Bool
  notify : NotifyBehavior
  selectOk : Nat → Bool

/-- Position of a character in a string's character list, the model of
`string::find` (`none` models `string::npos`). -/
def findIdx (cs : List Char) (c : Char) : Option Nat :=
  match cs with
  | [] => none
  | x :: xs => if x = c then some 0 else (findIdx xs c).map (· + 1)

/-- The digit-to-candidate-index mapping `(keycode % 0x10 + 9) % 10`. -/
def digitIndex (keycode : Nat) : Nat :=
  (keycode % 0x10 + 9) % 10

/-- Result of one `ProcessKeyEvent` run. -/
structure PKResult where
  result : ProcessResult
  st : PredictorState
  ctx : Context
  actions : List Action
deriving DecidableEq, Repr

/-- Result of one `PredictAndUpdate` run: whether an exception propagated
out of it, the session state at exit, the value `self_updating` held at
the moment the update notification was fired (if it was), and the trace. -/
structure PAUResult where
  raised : Bool
  st : PredictorState
  flagAtNotify : Option Bool
  actions : List Action
deriving DecidableEq, Repr

/-- `Predictor::PredictAndUpdate`: if the engine predicts, create the
prediction segment, set `self_updating_`, fire the update notification,
and clear the flag after the call returns. There is no scope guard: the
clearing assignment is skipped when the notification raises. -/
def PredictAndUpdate (env : Env) (st : PredictorState) (query : String) : PAUResult :=
  if env.predictOk then
    match env.notify with
    | .returns =>
      { raised := false, st := { st with self_updating := false },
        flagAtNotify := some true,
        actions := [.EnginePredict query, .CreatePredictSegment, .NotifyUpdate] }
    | .raises =>
      { raised := true, st := { st with self_updating := true },
        flagAtNotify := some true,
        actions := [.EnginePredict query, .CreatePredictSegment, .NotifyUpdate] }
  else
    { raised := false, st := st, flagAtNotify := none,
      actions := [.EnginePredict query] }

/-- The page start computed by the selection branches:
`(selected_index / page_size) * page_size`. -/
def pageStart (selected_index page_size : Nat) : Nat :=
  selected_index / page_size * page_size

/-- The `composition().empty()` branch of `ProcessKeyEvent`. -/
def pkEmptyBranch (st : PredictorState) (ctx : Context) : PKResult :=
  if st.iteration_counter > 0 then
    ⟨.kNoop, { st with last_action := .kInitiate, iteration_counter := 0 },
      ctx, [.EngineClear]⟩
  else
    ⟨.kNoop, { st with last_action := .kInitiate }, ctx, []⟩

/-- The `XK_BackSpace` branch of `ProcessKeyEvent`. -/
def pkBackSpaceBranch (st : PredictorState) (ctx : Context) : PKResult :=
  if (backSeg ctx.composition).hasTag "prediction" then
    ⟨.kAccepted,
      { st with last_action := .kDelete, iteration_counter := st.iteration_counter - 1 },
      { ctx with composition := ctx.composition.dropLast },
      [.EngineClear, .PopBack]⟩
  else
    ⟨.kNoop, { st with last_action := .kDelete }, ctx, []⟩

/-- The `XK_Escape` branch of `ProcessKeyEvent`. -/
def pkEscapeBranch (st : PredictorState) (ctx : Context) : PKResult :=
  if (backSeg ctx.composition).hasTag "prediction" then
    if ctx.hasMenu && decide (0 < ctx.input.length) then
      ⟨.kAccepted, { st with last_action := .kDelete, iteration_counter := 0 },
        ctx, [.EngineClear, .ClearBackSegment]⟩
    else
      ⟨.kAccepted, { st with last_action := .kDelete, iteration_counter := 0 },
        ctx, [.EngineClear, .CtxClear]⟩
  else
    ⟨.kNoop, { st with last_action := .kDelete }, ctx, []⟩

/-- The confirm-key (`XK_Return`/`XK_KP_Enter`) branch of `ProcessKeyEvent`. -/
def pkConfirmBranch (st : PredictorState) (ctx : Context) : PKResult :=
  ⟨.kAccepted, { st with last_action := .kSelect, iteration_counter := 0 }, ctx,
    (if (backSeg ctx.composition).hasTag "prediction"
      then [Action.ClearBackSegment] else []) ++ [.EngineClear, .CtxCommit]⟩

/-- The body shared textually by the selector-key and digit-key branches of
`ProcessKeyEvent`, at a page-relative candidate index already resolved by
the caller. -/
def pkSelectAt (env : Env) (st : PredictorState) (ctx : Context)
    (index : Nat) : PKResult :=
  if (backSeg ctx.composition).hasTag "prediction" then
    if index < env.page_size then
      if env.selectOk (pageStart (backSeg ctx.composition).selected_index env.page_size +
          index) then
        ⟨.kAccepted, { st with last_action := .kSelect }, ctx,
          [.CtxSelect (pageStart (backSeg ctx.composition).selected_index env.page_size +
            index)]⟩
      else
        ⟨.kNoop, st, ctx,
          [.CtxSelect (pageStart (backSeg ctx.composition).selected_index env.page_size +
            index)]⟩
    else
      ⟨.kNoop, st, ctx, []⟩
  else
    ⟨.kNoop, st, ctx, []⟩

/-- The final (`else`) branch of `ProcessKeyEvent`. -/
def pkFallbackBranch (st : PredictorState) (ctx : Context) (ke : KeyEvent) : PKResult :=
  match ctx.composition.reverse with
  | [] => ⟨.kNoop, { st with last_action := .kUnspecified }, ctx, []⟩
  | s0 :: rest =>
    if s0.hasTag "prediction" && decide (0x20 < ke.keycode) &&
        decide (ke.keycode < 0x7f) &&
        (findIdx st.initials.toList (Char.ofNat ke.keycode)).isSome then
      match rest with
      | s1 :: _ =>
        if s1.hasTag "prediction" then
          ⟨.kNoop, { st with last_action := .kUnspecified, iteration_counter := 0 },
            ctx, [.ClearBackSegment, .EngineClear, .CtxCommit]⟩
        else
          ⟨.kNoop, { st with last_action := .kUnspecified }, ctx, [.ClearBackSegment]⟩
      | [] => ⟨.kNoop, { st with last_action := .kUnspecified }, ctx, [.ClearBackSegment]⟩
    else
      ⟨.kNoop, { st with last_action := .kUnspecified }, ctx, []⟩

/-- `Predictor::ProcessKeyEvent`, branch for branch: the guard clauses,
then the first-match-wins branch chain, each branch body named above. -/
def processKeyEvent (env : Env) (st : PredictorState) (ctx : Context)
    (ke : KeyEvent) : PKResult :=
  if !env.hasHostEngine then
    ⟨.kNoop, st, ctx, []⟩
  else if !env.hasEngine || !env.hasContext || !ctx.get_option "prediction" then
    ⟨.kNoop, st, ctx, []⟩
  else if ctx.composition.isEmpty then
    pkEmptyBranch st ctx
  else if ke.keycode == XK_BackSpace then
    pkBackSpaceBranch st ctx
  else if ke.keycode == XK_Escape then
    pkEscapeBranch st ctx
  else if (ke.keycode == XK_Return || ke.keycode == XK_KP_Enter) &&
      ke.modifier == 0 && !ctx.get_option "_auto_commit" then
    pkConfirmBranch st ctx
  else if !st.selectors.isEmpty && decide (0x20 ≤ ke.keycode) &&
      decide (ke.keycode < 0x7f) && ke.modifier == 0 &&
      (findIdx st.selectors.toList (Char.ofNat ke.keycode)).isSome then
    pkSelectAt env st ctx ((findIdx st.selectors.toList (Char.ofNat ke.keycode)).getD 0)
  else if st.selectors.isEmpty && ke.modifier == 0 &&
      ((decide (XK_0 ≤ ke.keycode) && decide (ke.keycode ≤ XK_9)) ||
       (decide (XK_KP_0 ≤ ke.keycode) && decide (ke.keycode ≤ XK_KP_9))) then
    pkSelectAt env st ctx (digitIndex ke.keycode)
  else
    pkFallbackBranch st ctx ke

/-- Result of one notification-handler run: whether an exception propagated,
the session state, the context, and the trace. -/
structure HandlerResult where
  raised : Bool
  st : PredictorState
  ctx : Context
  actions : List Action
deriving DecidableEq, Repr

/-- Outcome of `Predictor::OnSelect`: the handler either dereferences
`rbegin()` of an empty composition, dereferences a null selected
candidate, or completes. -/
inductive OnSelectOut where
  | oobSegment
  | nullCandidate
  | ok (r : HandlerResult)
deriving DecidableEq, Repr

/-- The handler result produced when a handler tail-calls
`PredictAndUpdate` on context `ctx` with query `q`. -/
def viaPAU (env : Env) (st : PredictorState) (ctx : Context) (q : String) :
    HandlerResult :=
  ⟨(PredictAndUpdate env st q).raised, (PredictAndUpdate env st q).st, ctx,
    (PredictAndUpdate env st q).actions⟩

/-- `Predictor::OnSelect`, branch for branch. -/
def OnSelect (env : Env) (st : PredictorState) (ctx : Context) : OnSelectOut :=
  if !env.hasEngine || !env.hasContext || !ctx.get_option "prediction" ||
      ctx.get_option "_auto_commit" then
    .ok ⟨false, { st with last_action := .kSelect }, ctx, []⟩
  else
    match ctx.composition.reverse with
    | [] => .oobSegment
    | seg :: rest =>
      if seg.stop != ctx.input.length || seg.stop != seg.start then
        .ok ⟨false, { st with last_action := .kSelect }, ctx, []⟩
      else if seg.status == .kConfirmed && seg.hasTag "prediction" then
        match ctx.selectedCandidate with
        | none => .nullCandidate
        | some cand =>
          if env.max_iterations > 0 &&
              decide (env.max_iterations ≤ st.iteration_counter + 1) then
            .ok ⟨false, { st with last_action := .kSelect, iteration_counter := 0 },
              { ctx with composition := ctx.composition ++ [newSegment ctx.input.length] },
              [.EngineClear]⟩
          else
            viaPAU env
              { st with last_action := .kSelect, iteration_counter := st.iteration_counter + 1 }
              { ctx with composition := ctx.composition ++ [newSegment ctx.input.length] }
              cand.text |> .ok
      else
        match rest with
        | prev :: _ =>
          if prev.status == .kConfirmed then
            match prev.selectedCandidate with
            | none =>
              .ok ⟨false, { st with last_action := .kSelect, iteration_counter := 0 },
                ctx, [.EngineClear]⟩
            | some cand =>
              if cand.ctype == "punct" then
                .ok ⟨false, { st with last_action := .kSelect, iteration_counter := 0 },
                  ctx, [.EngineClear]⟩
              else
                viaPAU env { st with last_action := .kSelect } ctx cand.text |> .ok
          else
            .ok ⟨false, { st with last_action := .kSelect }, ctx, []⟩
        | [] => .ok ⟨false, { st with last_action := .kSelect }, ctx, []⟩

/-- `Predictor::OnOptionUpdate`, branch for branch. It issues no external
requests of its own, so its trace is empty. -/
def OnOptionUpdate (st : PredictorState) (ctx : Context) (hasContext : Bool)
    (option : String) : PredictorState × Context :=
  if option != "ascii_mode" || !hasContext || !ctx.get_option "prediction" then
    (st, ctx)
  else
    if !ctx.composition.isEmpty && (backSeg ctx.composition).hasTag "prediction" then
      if ctx.get_option "_auto_commit" then
        ({ st with iteration_counter := 0 }, { ctx with composition := [] })
      else
        ({ st with iteration_counter := 0 },
          { ctx with composition := ctx.composition.dropLast })
    else
      ({ st with iteration_counter := 0 }, ctx)

/-- `Predictor::OnContextUpdate`, branch for branch. -/
def OnContextUpdate (env : Env) (st : PredictorState) (ctx : Context) : HandlerResult :=
  if st.self_updating || !env.hasEngine || !env.hasContext ||
      !ctx.get_option "prediction" || !ctx.get_option "_auto_commit" ||
      !ctx.composition.isEmpty || ctx.commitHistory.isEmpty ||
      st.last_action == LastAction.kDelete ||
      st.last_action == LastAction.kInitiate then
    ⟨false, st, ctx, []⟩
  else
    if (ctx.commitHistory.getLast?.getD ⟨"", ""⟩).ctype == "punct" ||
        (ctx.commitHistory.getLast?.getD ⟨"", ""⟩).ctype == "raw" ||
        (ctx.commitHistory.getLast?.getD ⟨"", ""⟩).ctype == "thru" then
      ⟨false, { st with iteration_counter := 0 }, ctx, [.EngineClear]⟩
    else if (ctx.commitHistory.getLast?.getD ⟨"", ""⟩).ctype == "prediction" then
      if env.max_iterations > 0 &&
          decide (env.max_iterations ≤ st.iteration_counter + 1) then
        ⟨false, { st with iteration_counter := 0 }, ctx, [.EngineClear]⟩
      else
        viaPAU env { st with iteration_counter := st.iteration_counter + 1 } ctx
          (ctx.commitHistory.getLast?.getD ⟨"", ""⟩).text
    else
      viaPAU env st ctx (ctx.commitHistory.getLast?.getD ⟨"", ""⟩).text

/-! Concrete fixtures used by witnesses and counterexamples. -/

/-- A default environment: every collaborator present, page size 4,
iteration limit 5, prediction declined, notifications return normally,
`Context::Select` succeeds exactly at index 6. -/
def envD : Env :=
  { hasHostEngine := true, hasEngine := true, hasContext := true,
    page_size := 4, max_iterations := 5, predictOk := false,
    notify := .returns, selectOk := fun i => i == 6 }

/-- A confirmed trailing segment tagged `prediction`, selected index 5. -/
def predSeg : Segment :=
  { start := 0, stop := 2, status := .kConfirmed, tags := ["prediction"],
    selected_index := 5, selectedCandidate := some ⟨"天", "prediction"⟩ }

/-- A trailing segment with no `prediction` tag. -/
def plainSeg : Segment :=
  { start := 0, stop := 2, status := .kSelected, tags := ["abc"],
    selected_index := 0, selectedCandidate := some ⟨"你", "user_phrase"⟩ }

/-- Session state with an active chain of three accepted predictions. -/
def stB : PredictorState :=
  { iteration_counter := 3, last_action := .kUnspecified,
    self_updating := false, selectors := "", initials := "abcdefghijklmnopqrstuvwxyz" }

/-- Session state with a zero counter. -/
def stZero : PredictorState :=
  { iteration_counter := 0, last_action := .kUnspecified,
    self_updating := false, selectors := "", initials := "abcdefghijklmnopqrstuvwxyz" }

/-- A context whose trailing segment is a prediction, with prediction
enabled and auto-commit off. -/
def ctxB : Context :=
  { composition := [predSeg], input := "ab", options := ["prediction"],
    commitHistory := [], hasMenu := true, selectedCandidate := some ⟨"天", "prediction"⟩ }

/-- A context whose trailing segment is not a prediction. -/
def ctxPlain : Context :=
  { composition := [plainSeg], input := "ab", options := ["prediction"],
    commitHistory := [], hasMenu := true, selectedCandidate := some ⟨"你", "user_phrase"⟩ }

/-- A context with an empty composition, prediction on, auto-commit off. -/
def ctxEmpty : Context :=
  { composition := [], input := "", options := ["prediction"], commitHistory := [],
    hasMenu := false, selectedCandidate := none }

def keBS : KeyEvent := { keycode := XK_BackSpace, modifier := 0 }
def keEsc : KeyEvent := { keycode := XK_Escape, modifier := 0 }
def keRet : KeyEvent := { keycode := XK_Return, modifier := 0 }

/-! Helper lemmas shared between claims. -/

/-- The property that a provider-clearing trace entry forces a zeroed
counter, read off a `ProcessKeyEvent` result. -/
def clearImpliesZero (p : PKResult) : Prop :=
  Action.EngineClear ∈ p.actions → p.st.iteration_counter = 0

/-- The same property read off a notification-handler result. -/
def hrClearImpliesZero (r : HandlerResult) : Prop :=
  Action.EngineClear ∈ r.actions → r.st.iteration_counter = 0

lemma pau_no_engineClear (env : Env) (st : PredictorState) (q : String) :
    Action.EngineClear ∉ (PredictAndUpdate env st q).actions := by
  unfold PredictAndUpdate
  repeat' split
  all_goals simp

lemma viaPAU_no_engineClear (env : Env) (st : PredictorState) (ctx : Context)
    (q : String) : Action.EngineClear ∉ (viaPAU env st ctx q).actions := by
  simpa [viaPAU] using pau_no_engineClear env st q

lemma pkEmptyBranch_clear (st : PredictorState) (ctx : Context) :
    clearImpliesZero (pkEmptyBranch st ctx) := by
  unfold pkEmptyBranch
  repeat' split
  all_goals simp_all [clearImpliesZero]

lemma pkEscapeBranch_clear (st : PredictorState) (ctx : Context) :
    clearImpliesZero (pkEscapeBranch st ctx) := by
  unfold pkEscapeBranch
  repeat' split
  all_goals simp_all [clearImpliesZero]

lemma pkConfirmBranch_clear (st : PredictorState) (ctx : Context) :
    clearImpliesZero (pkConfirmBranch st ctx) := by
  unfold pkConfirmBranch
  repeat' split
  all_goals simp_all [clearImpliesZero]

lemma pkSelectAt_clear (env : Env) (st : PredictorState) (ctx : Context)
    (index : Nat) : clearImpliesZero (pkSelectAt env st ctx index) := by
  unfold pkSelectAt
  repeat' split
  all_goals simp_all [clearImpliesZero]

lemma pkFallbackBranch_clear (st : PredictorState) (ctx : Context)
    (ke : KeyEvent) : clearImpliesZero (pkFallbackBranch st ctx ke) := by
  unfold pkFallbackBranch
  repeat' split
  all_goals simp_all [clearImpliesZero]

lemma pk_clear_counter (env : Env) (st : PredictorState) (ctx : Context)
    (ke : KeyEvent) (hk : ke.keycode ≠ XK_BackSpace ∨ ctx.composition = []) :
    clearImpliesZero (processKeyEvent env st ctx ke) := by
  unfold processKeyEvent
  repeat' split
  all_goals first
    | (simp_all [clearImpliesZero]; done)
    | exact pkEmptyBranch_clear _ _
    | exact pkEscapeBranch_clear _ _
    | exact pkConfirmBranch_clear _ _
    | exact pkSelectAt_clear _ _ _ _
    | exact pkFallbackBranch_clear _ _ _

lemma onSelect_clear_counter (env : Env) (st : PredictorState) (ctx : Context)
    (r : HandlerResult) (h : OnSelect env st ctx = OnSelectOut.ok r) :
    hrClearImpliesZero r := by
  unfold OnSelect at h
  repeat' split at h
  all_goals cases h
  all_goals first
    | (simp only [hrClearImpliesZero]
       intro hm
       exact absurd hm (viaPAU_no_engineClear _ _ _ _))
    | simp_all [hrClearImpliesZero]

lemma onContextUpdate_clear_counter (env : Env) (st : PredictorState)
    (ctx : Context) :
    hrClearImpliesZero (OnContextUpdate env st ctx) := by
  unfold OnContextUpdate
  repeat' split
  all_goals first
    | (simp only [hrClearImpliesZero]
       intro hm
       exact absurd hm (viaPAU_no_engineClear _ _ _ _))
    | simp_all [hrClearImpliesZero]

/-! Claim theorems. -/

/-- C1 (as stated) is false: processing Backspace with the trailing segment
tagged `prediction` and `iteration_counter = 3` clears the provider
(`EngineClear` is issued) yet leaves the counter at 2, not 0. -/
theorem C1_counterexample :
    Action.EngineClear ∈ (processKeyEvent envD stB ctxB keBS).actions ∧
    (processKeyEvent envD stB ctxB keBS).st.iteration_counter = 2 ∧
    ¬(processKeyEvent envD stB ctxB keBS).st.iteration_counter = 0 := by
  decide

/-- C1 (amended): every provider-clearing operation in the key-event
handler other than the Backspace-delete branch — a Backspace keypress on a
non-empty composition — leaves `iteration_counter` equal to 0; in
particular the empty-composition clearing path is covered for every
keycode, Backspace included. The same holds for every provider-clearing
operation in the selection and context-update handlers;
`PredictAndUpdate` never clears the provider, and the option-update
handler issues no provider request at all (its trace is empty by
definition). Only the Backspace-delete branch diverges, decrementing the
counter by 1 instead. -/
theorem C1_clear_resets_counter (env : Env) (st : PredictorState)
    (ctx : Context) (ke : KeyEvent) (q : String) :
    (ke.keycode ≠ XK_BackSpace ∨ ctx.composition = [] →
      Action.EngineClear ∈ (processKeyEvent env st ctx ke).actions →
      (processKeyEvent env st ctx ke).st.iteration_counter = 0) ∧
    (∀ r : HandlerResult, OnSelect env st ctx = OnSelectOut.ok r →
      Action.EngineClear ∈ r.actions → r.st.iteration_counter = 0) ∧
    (Action.EngineClear ∈ (OnContextUpdate env st ctx).actions →
      (OnContextUpdate env st ctx).st.iteration_counter = 0) ∧
    Action.EngineClear ∉ (PredictAndUpdate env st q).actions :=
  ⟨fun hk => pk_clear_counter env st ctx ke hk,
   fun r h => onSelect_clear_counter env st ctx r h,
   onContextUpdate_clear_counter env st ctx,
   pau_no_engineClear env st q⟩

/-- Witness for C1: a Backspace keypress with an empty composition and an
active chain reaches the empty-composition branch, which clears the
provider; the counter is 0 right after. -/
theorem C1_witness :
    (processKeyEvent envD stB ctxEmpty keBS).st.iteration_counter = 0 :=
  (C1_clear_resets_counter envD stB ctxEmpty keBS "").1 (Or.inr rfl) (by decide)

/-- C2: Backspace with the trailing segment tagged `prediction` and
`iteration_counter = 3` removes the trailing segment, clears the
provider, sets the counter to 2 and `last_action` to Delete, and
consumes the event. -/
theorem C2_backspace_step (env : Env) (st : PredictorState) (ctx : Context)
    (ke : KeyEvent)
    (h1 : env.hasHostEngine = true) (h2 : env.hasEngine = true)
    (h3 : env.hasContext = true) (h4 : ctx.get_option "prediction" = true)
    (h5 : ctx.composition.isEmpty = false) (h6 : ke.keycode = XK_BackSpace)
    (h7 : (backSeg ctx.composition).hasTag "prediction" = true)
    (h8 : st.iteration_counter = 3) :
    (processKeyEvent env st ctx ke).result = ProcessResult.kAccepted ∧
    (processKeyEvent env st ctx ke).st.iteration_counter = 2 ∧
    (processKeyEvent env st ctx ke).st.last_action = LastAction.kDelete ∧
    (processKeyEvent env st ctx ke).ctx.composition = ctx.composition.dropLast ∧
    (processKeyEvent env st ctx ke).actions = [Action.EngineClear, Action.PopBack] := by
  simp [processKeyEvent, pkBackSpaceBranch, h1, h2, h3, h4, h5, h6, h7, h8]

/-- Witness for C2 at a concrete input. -/
theorem C2_witness :
    (processKeyEvent envD stB ctxB keBS).result = ProcessResult.kAccepted ∧
    (processKeyEvent envD stB ctxB keBS).st.iteration_counter = 2 ∧
    (processKeyEvent envD stB ctxB keBS).st.last_action = LastAction.kDelete ∧
    (processKeyEvent envD stB ctxB keBS).ctx.composition = ctxB.composition.dropLast ∧
    (processKeyEvent envD stB ctxB keBS).actions = [Action.EngineClear, Action.PopBack] :=
  C2_backspace_step envD stB ctxB keBS rfl rfl rfl (by decide) (by decide) rfl
    (by decide) rfl

/-- C10: the Backspace branch decrements the counter by exactly 1 with no
lower bound: the new counter is always the old one minus 1, as a signed
integer. -/
theorem C10_backspace_counter_unbounded (env : Env) (st : PredictorState)
    (ctx : Context) (ke : KeyEvent)
    (h1 : env.hasHostEngine = true) (h2 : env.hasEngine = true)
    (h3 : env.hasContext = true) (h4 : ctx.get_option "prediction" = true)
    (h5 : ctx.composition.isEmpty = false) (h6 : ke.keycode = XK_BackSpace)
    (h7 : (backSeg ctx.composition).hasTag "prediction" = true) :
    (processKeyEvent env st ctx ke).st.iteration_counter =
      st.iteration_counter - 1 := by
  simp [processKeyEvent, pkBackSpaceBranch, h1, h2, h3, h4, h5, h6, h7]

/-- C3 (as stated) is false: with the confirm key, no modifier, auto-commit
off and a non-empty composition whose trailing segment is NOT tagged
`prediction`, the branch still fires — the event is consumed, the provider
is cleared, the context committed and `last_action` set to Select, instead
of falling through to the Unspecified branch unconsumed. -/
theorem C3_counterexample :
    (backSeg ctxPlain.composition).hasTag "prediction" = false ∧
    (processKeyEvent envD stZero ctxPlain keRet).result = ProcessResult.kAccepted ∧
    (processKeyEvent envD stZero ctxPlain keRet).st.last_action = LastAction.kSelect ∧
    (processKeyEvent envD stZero ctxPlain keRet).actions =
      [Action.EngineClear, Action.CtxCommit] := by
  decide

/-- C3 (amended): the confirm branch triggers on the key alone (given no
modifier, auto-commit off, non-empty composition): it always clears the
provider, resets the counter, commits the context, sets
`last_action = Select` and consumes the event; only the clearing of the
trailing segment's content is conditional on the `prediction` tag. -/
theorem C3_confirm_branch (env : Env) (st : PredictorState) (ctx : Context)
    (ke : KeyEvent)
    (h1 : env.hasHostEngine = true) (h2 : env.hasEngine = true)
    (h3 : env.hasContext = true) (h4 : ctx.get_option "prediction" = true)
    (h5 : ctx.composition.isEmpty = false)
    (h6 : ke.keycode = XK_Return ∨ ke.keycode = XK_KP_Enter)
    (h7 : ke.modifier = 0)
    (h8 : ctx.get_option "_auto_commit" = false) :
    (processKeyEvent env st ctx ke).result = ProcessResult.kAccepted ∧
    (processKeyEvent env st ctx ke).st.iteration_counter = 0 ∧
    (processKeyEvent env st ctx ke).st.last_action = LastAction.kSelect ∧
    Action.EngineClear ∈ (processKeyEvent env st ctx ke).actions ∧
    Action.CtxCommit ∈ (processKeyEvent env st ctx ke).actions ∧
    (Action.ClearBackSegment ∈ (processKeyEvent env st ctx ke).actions ↔
      (backSeg ctx.composition).hasTag "prediction" = true) := by
  rcases h6 with h6 | h6 <;>
    by_cases htag : (backSeg ctx.composition).hasTag "prediction" <;>
      simp [processKeyEvent, pkConfirmBranch, h1, h2, h3, h4, h5, h6, h7, h8, htag,
        XK_Return, XK_KP_Enter, XK_BackSpace, XK_Escape]

/-- Witness for C3 at a concrete input whose trailing segment is tagged. -/
theorem C3_witness :
    (processKeyEvent envD stB ctxB keRet).result = ProcessResult.kAccepted ∧
    (processKeyEvent envD stB ctxB keRet).st.iteration_counter = 0 ∧
    (processKeyEvent envD stB ctxB keRet).st.last_action = LastAction.kSelect ∧
    Action.EngineClear ∈ (processKeyEvent envD stB ctxB keRet).actions ∧
    Action.CtxCommit ∈ (processKeyEvent envD stB ctxB keRet).actions ∧
    (Action.ClearBackSegment ∈ (processKeyEvent envD stB ctxB keRet).actions ↔
      (backSeg ctxB.composition).hasTag "prediction" = true) :=
  C3_confirm_branch envD stB ctxB keRet rfl rfl rfl (by decide) (by decide)
    (Or.inl rfl) rfl (by decide)

/-- The environment in which the provider predicts and the fired update
notification raises. -/
def envRaise : Env := { envD with predictOk := true, notify := .raises }

/-- C4 (as stated) is false on the exceptional exit path: entering
`PredictAndUpdate` with the flag false, a raising notification handler
propagates out with `self_updating` still true — there is no scope guard. -/
theorem C4_counterexample :
    stZero.self_updating = false ∧
    (PredictAndUpdate envRaise stZero "query").raised = true ∧
    (PredictAndUpdate envRaise stZero "query").st.self_updating = true := by
  decide

/-- C4 (amended): starting from a false flag, `PredictAndUpdate` returns
with the flag false on every normal exit (whether or not the provider
produced a prediction), and the flag is true exactly while the controller's
own update notification runs; but when the notification handler raises,
the exception propagates with the flag left true. -/
theorem C4_reentrancy_flag (env : Env) (st : PredictorState) (q : String)
    (h0 : st.self_updating = false) :
    (env.notify = NotifyBehavior.returns →
      (PredictAndUpdate env st q).raised = false ∧
      (PredictAndUpdate env st q).st.self_updating = false) ∧
    (env.predictOk = false →
      (PredictAndUpdate env st q).raised = false ∧
      (PredictAndUpdate env st q).st.self_updating = false) ∧
    ((PredictAndUpdate env st q).flagAtNotify = none ∨
      (PredictAndUpdate env st q).flagAtNotify = some true) ∧
    ((PredictAndUpdate env st q).raised = true →
      (PredictAndUpdate env st q).st.self_updating = true) := by
  unfold PredictAndUpdate
  repeat' split
  all_goals simp_all

/-- Witness for C4 at a concrete input. -/
theorem C4_witness :
    (PredictAndUpdate envD stZero "q").raised = false ∧
    (PredictAndUpdate envD stZero "q").st.self_updating = false :=
  (C4_reentrancy_flag envD stZero "q" rfl).1 rfl

/-- A confirmed, `prediction`-tagged empty tail segment at the end of the
input, as left behind right after a prediction is accepted. -/
def predTail : Segment :=
  { start := 2, stop := 2, status := .kConfirmed, tags := ["prediction"],
    selected_index := 0, selectedCandidate := none }

/-- A context in the fluid-editor shape whose confirmed prediction tail has
no selected candidate at the context level. -/
def ctxC5 : Context :=
  { composition := [predTail], input := "ab", options := ["prediction"],
    commitHistory := [], hasMenu := false, selectedCandidate := none }

/-- A confirmed ordinary segment with no selected candidate. -/
def confPrev : Segment :=
  { start := 0, stop := 2, status := .kConfirmed, tags := [],
    selected_index := 0, selectedCandidate := none }

/-- A void empty tail segment at the end of the input. -/
def tailEmpty : Segment :=
  { start := 2, stop := 2, status := .kVoid, tags := [], selected_index := 0,
    selectedCandidate := none }

/-- A context whose tail is empty and whose preceding segment is confirmed
with no selected candidate. -/
def ctxC5b : Context :=
  { composition := [confPrev, tailEmpty], input := "ab", options := ["prediction"],
    commitHistory := [], hasMenu := false, selectedCandidate := none }

/-- C5 (as stated) is false: in the confirmed-prediction-tail branch of
`OnSelect`, an absent selected candidate does not degrade to a no-op —
`GetSelectedCandidate()->text()` dereferences the null candidate
(the `nullCandidate` outcome), a fatal error. -/
theorem C5_counterexample :
    ctxC5.get_option "prediction" = true ∧
    ctxC5.get_option "_auto_commit" = false ∧
    (backSeg ctxC5.composition).hasTag "prediction" = true ∧
    ctxC5.selectedCandidate = none ∧
    OnSelect envD stZero ctxC5 = OnSelectOut.nullCandidate := by
  decide

/-- C5 (amended): `OnSelect` degrades an absent candidate to a graceful
clear-and-reset only in the preceding-confirmed-segment branch (provider
cleared, counter reset, context untouched, no error); in the confirmed
prediction-tail branch it dereferences the context-level selected
candidate unconditionally, so absence there is a null dereference rather
than a no-op. -/
theorem C5_absent_candidate (env : Env) (st : PredictorState) (ctx : Context)
    (seg prev : Segment) (rest : List Segment)
    (h2 : env.hasEngine = true) (h3 : env.hasContext = true)
    (h4 : ctx.get_option "prediction" = true)
    (h8 : ctx.get_option "_auto_commit" = false)
    (hrev : ctx.composition.reverse = seg :: prev :: rest)
    (hstop : seg.stop = ctx.input.length) (hse : seg.start = seg.stop) :
    (seg.status = SegmentStatus.kConfirmed → seg.hasTag "prediction" = true →
      ctx.selectedCandidate = none →
      OnSelect env st ctx = OnSelectOut.nullCandidate) ∧
    (¬(seg.status = SegmentStatus.kConfirmed ∧ seg.hasTag "prediction" = true) →
      prev.status = SegmentStatus.kConfirmed → prev.selectedCandidate = none →
      OnSelect env st ctx = OnSelectOut.ok
        ⟨false, { st with last_action := LastAction.kSelect, iteration_counter := 0 },
          ctx, [Action.EngineClear]⟩) := by
  constructor
  · intro hst htag hcand
    simp [OnSelect, h2, h3, h4, h8, hrev, hstop, hse, hst, htag, hcand]
  · intro hnot hprev hcand
    cases hcase : (seg.status == SegmentStatus.kConfirmed && seg.hasTag "prediction") with
    | true =>
      simp only [Bool.and_eq_true, beq_iff_eq] at hcase
      exact absurd hcase hnot
    | false =>
      simp [OnSelect, h2, h3, h4, h8, hrev, hstop, hse, hcase, hprev, hcand]

/-- Witness for C5: the graceful branch at a concrete input. -/
theorem C5_witness :
    OnSelect envD stZero ctxC5b = OnSelectOut.ok
      ⟨false, { stZero with last_action := LastAction.kSelect, iteration_counter := 0 },
        ctxC5b, [Action.EngineClear]⟩ :=
  (C5_absent_candidate envD stZero ctxC5b tailEmpty confPrev [] rfl rfl
      (by decide) (by decide) (by decide) (by decide) rfl).2 (by decide) rfl rfl

/-- Session state one step short of the iteration limit, after a Select. -/
def stC6 : PredictorState :=
  { iteration_counter := 4, last_action := .kSelect, self_updating := false,
    selectors := "", initials := "" }

/-- An auto-commit context that just went empty after committing a
prediction. -/
def ctxC6 : Context :=
  { composition := [], input := "", options := ["prediction", "_auto_commit"],
    commitHistory := [⟨"天气", "prediction"⟩], hasMenu := false,
    selectedCandidate := none }

/-- C6: in auto-commit mode with an empty composition, a last commit of
type `prediction` and `iteration_counter = max_iterations - 1` (limit
positive), the context-update handler increments the counter to the limit,
clears the provider, resets the counter to 0 and requests no new
prediction. -/
theorem C6_autocommit_limit_reached (env : Env) (st : PredictorState)
    (ctx : Context)
    (h0 : st.self_updating = false) (h2 : env.hasEngine = true)
    (h3 : env.hasContext = true)
    (h4 : ctx.get_option "prediction" = true)
    (h5 : ctx.get_option "_auto_commit" = true)
    (h6 : ctx.composition = []) (h7 : ctx.commitHistory.isEmpty = false)
    (h8 : (ctx.commitHistory.getLast?.getD ⟨"", ""⟩).ctype = "prediction")
    (h9 : st.last_action = LastAction.kSelect)
    (h10 : 0 < env.max_iterations)
    (h11 : st.iteration_counter = env.max_iterations - 1) :
    OnContextUpdate env st ctx =
      ⟨false, { st with iteration_counter := 0 }, ctx, [Action.EngineClear]⟩ := by
  simp [OnContextUpdate, h0, h2, h3, h4, h5, h6, h7, h8, h9, h10, h11]

/-- Witness for C6 at a concrete input: counter 4, limit 5. -/
theorem C6_witness :
    OnContextUpdate envD stC6 ctxC6 =
      ⟨false, { stC6 with iteration_counter := 0 }, ctxC6, [Action.EngineClear]⟩ :=
  C6_autocommit_limit_reached envD stC6 ctxC6 rfl rfl rfl (by decide) (by decide)
    rfl (by decide) (by decide) rfl (by decide) (by decide)

/-- C9: once `OnSelect` passes its option guards it reads the trailing
segment with no emptiness check: on an empty composition the access is out
of bounds (the `oobSegment` outcome), and on a non-empty composition it
never is. -/
theorem C9_onselect_unchecked_access (env : Env) (st : PredictorState)
    (ctx : Context)
    (h2 : env.hasEngine = true) (h3 : env.hasContext = true)
    (h4 : ctx.get_option "prediction" = true)
    (h8 : ctx.get_option "_auto_commit" = false) :
    (ctx.composition = [] → OnSelect env st ctx = OnSelectOut.oobSegment) ∧
    (ctx.composition ≠ [] → OnSelect env st ctx ≠ OnSelectOut.oobSegment) := by
  constructor
  · intro hemp
    simp [OnSelect, h2, h3, h4, h8, hemp]
  · intro hne
    cases hr : ctx.composition.reverse with
    | nil => exact absurd (by simpa using congrArg List.reverse hr) hne
    | cons a t =>
      simp only [OnSelect, h2, h3, h4, h8, hr]
      simp only [Bool.not_true, Bool.false_or, Bool.or_false, if_false]
      repeat' split
      all_goals simp

/-- Witness for C9: the out-of-bounds access on a concrete empty
composition. -/
theorem C9_witness :
    OnSelect envD stZero ctxEmpty = OnSelectOut.oobSegment :=
  (C9_onselect_unchecked_access envD stZero ctxEmpty rfl rfl (by decide)
    (by decide)).1 rfl

lemma pkSelectAt_spec (env : Env) (st : PredictorState) (ctx : Context) (i : Nat)
    (htag : (backSeg ctx.composition).hasTag "prediction" = true) :
    (i < env.page_size →
      env.selectOk (pageStart (backSeg ctx.composition).selected_index env.page_size +
        i) = true →
      pkSelectAt env st ctx i =
        ⟨.kAccepted, { st with last_action := .kSelect }, ctx,
          [.CtxSelect (pageStart (backSeg ctx.composition).selected_index env.page_size +
            i)]⟩) ∧
    (i < env.page_size →
      env.selectOk (pageStart (backSeg ctx.composition).selected_index env.page_size +
        i) = false →
      pkSelectAt env st ctx i =
        ⟨.kNoop, st, ctx,
          [.CtxSelect (pageStart (backSeg ctx.composition).selected_index env.page_size +
            i)]⟩) ∧
    (¬ i < env.page_size → pkSelectAt env st ctx i = ⟨.kNoop, st, ctx, []⟩) := by
  refine ⟨?_, ?_, ?_⟩
  · intro hlt hok
    simp [pkSelectAt, htag, hlt, hok]
  · intro hlt hok
    simp [pkSelectAt, htag, hlt, hok]
  · intro hge
    simp [pkSelectAt, htag, hge]

lemma pk_dispatch_selector (env : Env) (st : PredictorState) (ctx : Context)
    (ke : KeyEvent) (i : Nat)
    (h1 : env.hasHostEngine = true) (h2 : env.hasEngine = true)
    (h3 : env.hasContext = true) (h4 : ctx.get_option "prediction" = true)
    (h5 : ctx.composition.isEmpty = false)
    (hks : st.selectors.isEmpty = false)
    (hk1 : 0x20 ≤ ke.keycode) (hk2 : ke.keycode < 0x7f) (hmod : ke.modifier = 0)
    (hfind : findIdx st.selectors.toList (Char.ofNat ke.keycode) = some i) :
    processKeyEvent env st ctx ke = pkSelectAt env st ctx i := by
  have hb : (ke.keycode == XK_BackSpace) = false := by
    simp [XK_BackSpace]; omega
  have hesc : (ke.keycode == XK_Escape) = false := by
    simp [XK_Escape]; omega
  have hret : (ke.keycode == XK_Return) = false := by
    simp [XK_Return]; omega
  have hkp : (ke.keycode == XK_KP_Enter) = false := by
    simp [XK_KP_Enter]; omega
  have hfind2 : findIdx st.selectors.data (Char.ofNat ke.keycode) = some i := hfind
  simp [processKeyEvent, h1, h2, h3, h4, h5, hb, hesc, hret, hkp, hks, hk1, hk2,
    hmod, hfind, hfind2]

/-- C7: with selector keys configured and a no-modifier printable key that
occurs in the selector string at position `i`, pressed while the trailing
segment is tagged `prediction`: the branch attempts selection at
`pageStart selected_index page_size + i` when `i` is within the page, and
consumes the event exactly when `Context::Select` succeeds; an
out-of-page index attempts nothing. -/
theorem C7_selector_key_selection (env : Env) (st : PredictorState)
    (ctx : Context) (ke : KeyEvent) (i : Nat)
    (h1 : env.hasHostEngine = true) (h2 : env.hasEngine = true)
    (h3 : env.hasContext = true) (h4 : ctx.get_option "prediction" = true)
    (h5 : ctx.composition.isEmpty = false)
    (hks : st.selectors.isEmpty = false)
    (hk1 : 0x20 ≤ ke.keycode) (hk2 : ke.keycode < 0x7f) (hmod : ke.modifier = 0)
    (hfind : findIdx st.selectors.toList (Char.ofNat ke.keycode) = some i)
    (htag : (backSeg ctx.composition).hasTag "prediction" = true) :
    (i < env.page_size →
      env.selectOk (pageStart (backSeg ctx.composition).selected_index env.page_size +
        i) = true →
      processKeyEvent env st ctx ke =
        ⟨.kAccepted, { st with last_action := .kSelect }, ctx,
          [.CtxSelect (pageStart (backSeg ctx.composition).selected_index env.page_size +
            i)]⟩) ∧
    (i < env.page_size →
      env.selectOk (pageStart (backSeg ctx.composition).selected_index env.page_size +
        i) = false →
      processKeyEvent env st ctx ke =
        ⟨.kNoop, st, ctx,
          [.CtxSelect (pageStart (backSeg ctx.composition).selected_index env.page_size +
            i)]⟩) ∧
    (¬ i < env.page_size → processKeyEvent env st ctx ke = ⟨.kNoop, st, ctx, []⟩) := by
  rw [pk_dispatch_selector env st ctx ke i h1 h2 h3 h4 h5 hks hk1 hk2 hmod hfind]
  exact pkSelectAt_spec env st ctx i htag

/-- Session state with selector keys `"asdf"`. -/
def stSel : PredictorState := { stZero with selectors := "asdf" }

/-- The key event for the character `d`. -/
def keD : KeyEvent := { keycode := 0x64, modifier := 0 }

/-- Witness for C7 (scenario E): selectors `"asdf"`, page size 4, tail
selected index 5, key `d` resolves to page-relative index 2 and absolute
index 6, where selection succeeds. -/
theorem C7_witness :
    pageStart (backSeg ctxB.composition).selected_index envD.page_size + 2 = 6 ∧
    processKeyEvent envD stSel ctxB keD =
      ⟨ProcessResult.kAccepted, { stSel with last_action := LastAction.kSelect }, ctxB,
        [Action.CtxSelect
          (pageStart (backSeg ctxB.composition).selected_index envD.page_size + 2)]⟩ :=
  ⟨by decide,
   (C7_selector_key_selection envD stSel ctxB keD 2 rfl rfl rfl (by decide)
      (by decide) (by decide) (by decide) (by decide) rfl (by decide)
      (by decide)).1 (by decide) (by decide)⟩

lemma pk_dispatch_digit (env : Env) (st : PredictorState) (ctx : Context)
    (ke : KeyEvent)
    (h1 : env.hasHostEngine = true) (h2 : env.hasEngine = true)
    (h3 : env.hasContext = true) (h4 : ctx.get_option "prediction" = true)
    (h5 : ctx.composition.isEmpty = false)
    (hks : st.selectors.isEmpty = true) (hmod : ke.modifier = 0)
    (hdig : (XK_0 ≤ ke.keycode ∧ ke.keycode ≤ XK_9) ∨
            (XK_KP_0 ≤ ke.keycode ∧ ke.keycode ≤ XK_KP_9)) :
    processKeyEvent env st ctx ke = pkSelectAt env st ctx (digitIndex ke.keycode) := by
  have hdig2 : (0x30 ≤ ke.keycode ∧ ke.keycode ≤ 0x39) ∨
      (0xffb0 ≤ ke.keycode ∧ ke.keycode ≤ 0xffb9) := by
    simpa [XK_0, XK_9, XK_KP_0, XK_KP_9] using hdig
  have hb : (ke.keycode == XK_BackSpace) = false := by
    simp [XK_BackSpace]
    rcases hdig2 with ⟨hl, hr⟩ | ⟨hl, hr⟩ <;> omega
  have hesc : (ke.keycode == XK_Escape) = false := by
    simp [XK_Escape]
    rcases hdig2 with ⟨hl, hr⟩ | ⟨hl, hr⟩ <;> omega
  have hret : (ke.keycode == XK_Return) = false := by
    simp [XK_Return]
    rcases hdig2 with ⟨hl, hr⟩ | ⟨hl, hr⟩ <;> omega
  have hkp : (ke.keycode == XK_KP_Enter) = false := by
    simp [XK_KP_Enter]
    rcases hdig2 with ⟨hl, hr⟩ | ⟨hl, hr⟩ <;> omega
  rcases hdig with ⟨hl, hr⟩ | ⟨hl, hr⟩ <;>
    simp [processKeyEvent, h1, h2, h3, h4, h5, hb, hesc, hret, hkp, hks, hmod,
      hl, hr]

/-- C8: with no selector keys, a no-modifier digit key (main row or keypad)
pressed while the trailing segment is tagged `prediction` maps through
`(keycode % 0x10 + 9) % 10` — digit 0 to index 9, digit d in 1..9 to
index d-1, identically for both key ranges — and the branch attempts
selection at `pageStart + index` when the index is within the page,
consuming the event exactly when selection succeeds. -/
theorem C8_digit_key_selection (env : Env) (st : PredictorState)
    (ctx : Context) (ke : KeyEvent)
    (h1 : env.hasHostEngine = true) (h2 : env.hasEngine = true)
    (h3 : env.hasContext = true) (h4 : ctx.get_option "prediction" = true)
    (h5 : ctx.composition.isEmpty = false)
    (hks : st.selectors.isEmpty = true) (hmod : ke.modifier = 0)
    (hdig : (XK_0 ≤ ke.keycode ∧ ke.keycode ≤ XK_9) ∨
            (XK_KP_0 ≤ ke.keycode ∧ ke.keycode ≤ XK_KP_9))
    (htag : (backSeg ctx.composition).hasTag "prediction" = true) :
    (∀ d : Nat, d ≤ 9 →
      digitIndex (XK_0 + d) = (if d = 0 then 9 else d - 1) ∧
      digitIndex (XK_KP_0 + d) = (if d = 0 then 9 else d - 1)) ∧
    (digitIndex ke.keycode < env.page_size →
      env.selectOk (pageStart (backSeg ctx.composition).selected_index env.page_size +
        digitIndex ke.keycode) = true →
      processKeyEvent env st ctx ke =
        ⟨.kAccepted, { st with last_action := .kSelect }, ctx,
          [.CtxSelect (pageStart (backSeg ctx.composition).selected_index env.page_size +
            digitIndex ke.keycode)]⟩) ∧
    (digitIndex ke.keycode < env.page_size →
      env.selectOk (pageStart (backSeg ctx.composition).selected_index env.page_size +
        digitIndex ke.keycode) = false →
      processKeyEvent env st ctx ke =
        ⟨.kNoop, st, ctx,
          [.CtxSelect (pageStart (backSeg ctx.composition).selected_index env.page_size +
            digitIndex ke.keycode)]⟩) ∧
    (¬ digitIndex ke.keycode < env.page_size →
      processKeyEvent env st ctx ke = ⟨.kNoop, st, ctx, []⟩) := by
  rw [pk_dispatch_digit env st ctx ke h1 h2 h3 h4 h5 hks hmod hdig]
  have hs := pkSelectAt_spec env st ctx (digitIndex ke.keycode) htag
  refine ⟨?_, hs.1, hs.2.1, hs.2.2⟩
  intro d hd9
  interval_cases d <;> exact ⟨by decide, by decide⟩

/-- The key event for the digit `3`. -/
def keD3 : KeyEvent := { keycode := 0x33, modifier := 0 }

/-- Witness for C8: no selectors, digit key `3` maps to index 2 and selects
at absolute index 6, where selection succeeds. -/
theorem C8_witness :
    digitIndex 0x33 = 2 ∧
    processKeyEvent envD stZero ctxB keD3 =
      ⟨ProcessResult.kAccepted, { stZero with last_action := LastAction.kSelect }, ctxB,
        [Action.CtxSelect
          (pageStart (backSeg ctxB.composition).selected_index envD.page_size +
            digitIndex keD3.keycode)]⟩ :=
  ⟨by decide,
   (C8_digit_key_selection envD stZero ctxB keD3 rfl rfl rfl (by decide)
      (by decide) rfl rfl (Or.inl ⟨by decide, by decide⟩) (by decide)).2.1
      (by decide) (by decide)⟩

/-- Witness for C10: from a counter of 0, Backspace yields -1. -/
theorem C10_witness :
    stZero.iteration_counter = 0 ∧
    (processKeyEvent envD stZero ctxB keBS).st.iteration_counter = -1 := by
  refine ⟨rfl, ?_⟩
  rw [C10_backspace_counter_unbounded envD stZero ctxB keBS rfl rfl rfl
    (by decide) (by decide) rfl (by decide)]
  decide

end Predict
